import Mathlib

/-!
Shallow embedding of the document question-answering app (src/app.py) and
verification of its specified properties.

The app lets a user upload images or PDFs and ask a question; it converts each
document into page images, runs a document-QA model on each image, filters the
answers by a confidence threshold, and presents the surviving candidates sorted
by score.

Embedding conventions:
* confidence scores (Python floats) are embedded as rationals `ℚ`; only their
  order matters to the properties verified here;
* raster images are opaque, a type parameter `Img`;
* the external boundaries (PDF decoding via `fitz.open`, page rasterization,
  image decoding via `Image.open`, and the model call) are fallible and are
  embedded as `Except String`-valued data carried by the inputs: a `Documento`
  records what opening it as a PDF or as an image would yield, and the model is
  a function that may raise;
* user-visible side effects (`st.warning`, `st.error`, progress updates,
  `st.info`, rendering) and the model/loader invocations are collected in an
  explicit effect log, `List Efeito`.
-/

namespace AgenteEstudos

/-- A record returned by the document question-answering model: an answer text
and a confidence score (`r["answer"]`, `r["score"]` in src/app.py). -/
structure Registro where
  answer : String
  score : ℚ
deriving DecidableEq

/-- Page identifier carried by an answer candidate: a page number for PDF
pages (`"pagina": num_pagina + 1`), or the sentinel for standalone images
(`"pagina": "N/A"`), src/app.py lines 61 and 75. -/
inductive PaginaId where
  | numero (n : Nat)
  | na
deriving DecidableEq

/-- An answer candidate as appended to `respostas_encontradas`
(src/app.py lines 59-64 and 73-78). -/
structure Resposta where
  arquivo : String
  pagina : PaginaId
  resposta : String
  score : ℚ
deriving DecidableEq

/-- The document-QA model: takes an image and a question, returns a list of
answer records, and may raise an exception. -/
abbrev Modelo (Img : Type) : Type := Img → String → Except String (List Registro)

/-- A page of an opened PDF. `raster` is what converting the page to a bitmap
(`pagina.get_pixmap()` … `Image.open`, src/app.py lines 49-51) yields: the
decoded image, or an exception. -/
structure Pagina (Img : Type) where
  raster : Except String Img

/-- An uploaded document: its file name plus what the external decoders would
yield for it. `pdfOpen` is the outcome of `documento.read()` followed by
`fitz.open` (src/app.py lines 43-44); `imgOpen` is the outcome of
`Image.open(documento)` (line 68). -/
structure Documento (Img : Type) where
  name : String
  pdfOpen : Except String (List (Pagina Img))
  imgOpen : Except String Img

/-- One entry of the user-visible effect log. -/
inductive Efeito where
  /-- `st.warning msg` -/
  | aviso (msg : String)
  /-- `st.error msg` -/
  | erro (msg : String)
  /-- a progress-bar update with the given status text -/
  | progresso (texto : String)
  /-- `st.info msg` -/
  | informacao (msg : String)
  /-- one invocation of the model `modelo_qa(image=…, question=…)` -/
  | modeloAplicado
  /-- one invocation of the operation `carregar_modelo_qa()` -/
  | chamadaCarregar
  /-- one actual construction of the pipeline (a cache miss inside
  `carregar_modelo_qa`) -/
  | construcaoPipeline
  /-- rendering of one answer candidate (src/app.py lines 118-121) -/
  | renderizacao (r : Resposta)
deriving DecidableEq

/-- Lowercasing of a file name, embedding Python's `nome_arquivo.lower()`
(per-character lowercase; the extensions compared against are ASCII). -/
def minusculas (s : String) : String :=
  ⟨s.data.map Char.toLower⟩

/-- Embedding of Python's `s.endswith(sufixo)`: `sufixo` is a suffix of `s`. -/
def terminaCom (s sufixo : String) : Bool :=
  sufixo.data.isSuffixOf s.data

/-- The fixed confidence threshold `0.01` of src/app.py lines 57 and 71. -/
def limiar : ℚ := mkRat 1 100

/-- The filter `[r for r in resultado if r["score"] > 0.01]`
(src/app.py lines 57 and 71). -/
def filtrarRespostas (resultado : List Registro) : List Registro :=
  resultado.filter (fun r => decide (limiar < r.score))

/-- The dispatch condition `nome_arquivo.lower().endswith(".pdf")`
(src/app.py line 41). -/
def eNomePdf (nome : String) : Bool :=
  terminaCom (minusculas nome) ".pdf"

/-- The dispatch condition
`nome_arquivo.lower().endswith((".png", ".jpg", ".jpeg"))`
(src/app.py line 67); Python's tuple form means any of the three suffixes. -/
def eNomeImagem (nome : String) : Bool :=
  terminaCom (minusculas nome) ".png" || terminaCom (minusculas nome) ".jpg" ||
    terminaCom (minusculas nome) ".jpeg"

/-- The per-document error message of src/app.py line 81:
`f"Erro ao processar o arquivo {documento.name}: {e}"`. -/
def msgErro (nome e : String) : String :=
  "Erro ao processar o arquivo " ++ nome ++ ": " ++ e

/-- The loop over the pages of an opened PDF (src/app.py lines 47-64), starting
at 0-based page index `numPagina`. Returns the candidates appended to
`respostas_encontradas`, the effect log (one model invocation per page
reached), and `some e` when an exception `e` interrupted the loop. Candidates
appended before the exception are kept, as the Python list mutation keeps
them. -/
def processarPaginas {Img : Type} (modelo : Modelo Img) (pergunta nome : String) :
    Nat → List (Pagina Img) → List Resposta × List Efeito × Option String
  | _, [] => ([], [], none)
  | numPagina, p :: resto =>
    match p.raster with
    | .error e => ([], [], some e)
    | .ok imagem =>
      match modelo imagem pergunta with
      | .error e => ([], [.modeloAplicado], some e)
      | .ok resultado =>
        let novas := (filtrarRespostas resultado).map
          (fun r => ⟨nome, .numero (numPagina + 1), r.answer, r.score⟩)
        let seguinte := processarPaginas modelo pergunta nome (numPagina + 1) resto
        (novas ++ seguinte.1, .modeloAplicado :: seguinte.2.1, seguinte.2.2)

/-- The PDF branch of the per-document body (src/app.py lines 41-64), with the
`try`/`except` of lines 35-81 already applied to its outcome: an exception from
`fitz.open` or from the page loop ends as a tagged `st.error`, and the
candidates appended before the exception are kept. -/
def processarPdf {Img : Type} (modelo : Modelo Img) (pergunta : String)
    (d : Documento Img) : List Resposta × List Efeito :=
  match d.pdfOpen with
  | .error e => ([], [.erro (msgErro d.name e)])
  | .ok paginas =>
    let r := processarPaginas modelo pergunta d.name 0 paginas
    match r.2.2 with
    | none => (r.1, r.2.1)
    | some e => (r.1, r.2.1 ++ [.erro (msgErro d.name e)])

/-- The image branch of the per-document body (src/app.py lines 67-78), with
the `try`/`except` applied to its outcome. -/
def processarImagem {Img : Type} (modelo : Modelo Img) (pergunta : String)
    (d : Documento Img) : List Resposta × List Efeito :=
  match d.imgOpen with
  | .error e => ([], [.erro (msgErro d.name e)])
  | .ok imagem =>
    match modelo imagem pergunta with
    | .error e => ([], [.modeloAplicado, .erro (msgErro d.name e)])
    | .ok resultado =>
      let novas := (filtrarRespostas resultado).map
        (fun r => ⟨d.name, .na, r.answer, r.score⟩)
      (novas, [.modeloAplicado])

/-- Processing of a single document: the body of the `for` loop of
src/app.py lines 34-81, including its `try`/`except`. Returns the candidates
this document appends and its effect log (progress update, model invocations,
and the per-document `st.error` when an exception was caught). A file name
matching neither extension check runs neither branch. -/
def processarDocumento {Img : Type} (modelo : Modelo Img) (pergunta : String)
    (d : Documento Img) : List Resposta × List Efeito :=
  let efProg : List Efeito := [.progresso ("Analisando: " ++ d.name)]
  if eNomePdf d.name then
    let r := processarPdf modelo pergunta d
    (r.1, efProg ++ r.2)
  else if eNomeImagem d.name then
    let r := processarImagem modelo pergunta d
    (r.1, efProg ++ r.2)
  else
    ([], efProg)

/-- The candidates a single document contributes to `respostas_encontradas`. -/
def contribuicao {Img : Type} (modelo : Modelo Img) (pergunta : String)
    (d : Documento Img) : List Resposta :=
  (processarDocumento modelo pergunta d).1

/-- The `for` loop of src/app.py lines 34-81 over the whole batch. -/
def processarLoop {Img : Type} (modelo : Modelo Img) (pergunta : String) :
    List (Documento Img) → List Resposta × List Efeito
  | [] => ([], [])
  | d :: resto =>
    let r := processarDocumento modelo pergunta d
    let seguinte := processarLoop modelo pergunta resto
    (r.1 ++ seguinte.1, r.2 ++ seguinte.2)

/-- `processar_documentos(documentos_carregados, pergunta, modelo_qa)`
(src/app.py lines 20-84): warns and returns `[]` on an empty batch, otherwise
creates the progress bar and runs the per-document loop. -/
def processarDocumentos {Img : Type} (modelo : Modelo Img)
    (documentosCarregados : List (Documento Img)) (pergunta : String) :
    List Resposta × List Efeito :=
  if documentosCarregados.isEmpty then
    ([], [.aviso "Por favor, carregue um ou mais documentos antes de perguntar."])
  else
    let r := processarLoop modelo pergunta documentosCarregados
    (r.1, .progresso "Processando documentos..." :: r.2)

/-- Modelled from the spec: the `@st.cache_resource` caching of
`carregar_modelo_qa` (src/app.py lines 12-17) is implemented by the Streamlit
framework, whose code is not part of this repository. Per the spec, the
operation "on first call constructs and caches a callable …; subsequent calls
return the cached instance". `pipelineNovo` is the value `pipeline(…)` would
construct; the result is (returned model, new cache, whether the pipeline was
actually constructed on this call). -/
def carregarModeloQA {M : Type} (pipelineNovo : M) (cache : Option M) :
    M × Option M × Bool :=
  match cache with
  | some m => (m, some m, false)
  | none => (pipelineNovo, some pipelineNovo, true)

/-- The descending comparison on scores used by the presentation sort
(`key=lambda x: x["score"], reverse=True`, src/app.py line 115). -/
def ordemScore (a b : Resposta) : Bool :=
  decide (b.score ≤ a.score)

/-- The stable descending sort by score of src/app.py line 115:
`sorted(respostas, key=lambda x: x["score"], reverse=True)`. Python's `sorted`
is stable; `reverse=True` sorts descending while equal keys keep their original
order, which is exactly stable `mergeSort` with `ordemScore`. -/
def respostasOrdenadas (respostas : List Resposta) : List Resposta :=
  respostas.mergeSort ordemScore

/-- One run of the script's top level (src/app.py lines 87-125) for a given
interaction: `carregar_modelo_qa()` is called unconditionally at line 93,
then, if the button was clicked, the question is checked for emptiness
(Python's truthiness of a string) and the batch is processed and rendered.
Returns the collected candidates, the final model cache, and the effect log. -/
def execApp {Img : Type} (pipelineNovo : Modelo Img) (cacheInicial : Option (Modelo Img))
    (documentosCarregados : List (Documento Img)) (botaoClicado : Bool)
    (perguntaUsuario : String) :
    List Resposta × Option (Modelo Img) × List Efeito :=
  let carga := carregarModeloQA pipelineNovo cacheInicial
  let modeloQa := carga.1
  let cacheFinal := carga.2.1
  let efCarga : List Efeito :=
    .chamadaCarregar :: (if carga.2.2 then [.construcaoPipeline] else [])
  if botaoClicado then
    if perguntaUsuario.isEmpty then
      ([], cacheFinal, efCarga ++ [.aviso "Por favor, digite uma pergunta."])
    else
      let proc := processarDocumentos modeloQa documentosCarregados perguntaUsuario
      if proc.1.isEmpty then
        (proc.1, cacheFinal, efCarga ++ proc.2 ++
          [.informacao
            "Nenhuma resposta foi encontrada nos documentos fornecidos para esta pergunta."])
      else
        (proc.1, cacheFinal, efCarga ++ proc.2 ++
          (respostasOrdenadas proc.1).map .renderizacao)
  else
    ([], cacheFinal, efCarga)

/-- Whether a document fails while being opened/decoded, before any model
inference: its branch's decoder (`fitz.open` for a PDF name, `Image.open` for
an image name) raises the returned exception. -/
def falhaAbertura {Img : Type} (d : Documento Img) : Option String :=
  if eNomePdf d.name then
    match d.pdfOpen with
    | .error e => some e
    | .ok _ => none
  else if eNomeImagem d.name then
    match d.imgOpen with
    | .error e => some e
    | .ok _ => none
  else
    none

/-- The exception, if any, raised while handling one page of the PDF loop
(src/app.py lines 47-54): a rasterization failure or a model-call failure. -/
def falhaPagina {Img : Type} (modelo : Modelo Img) (pergunta : String)
    (p : Pagina Img) : Option String :=
  match p.raster with
  | .error e => some e
  | .ok imagem =>
    match modelo imagem pergunta with
    | .error e => some e
    | .ok _ => none

/-- The exception, if any, that the `try` of src/app.py lines 35-81 catches
while processing one document, wherever it arises: a decode failure of the
branch's opener (`fitz.open` / `Image.open`), the first failure inside the PDF
page loop, or the model failure on the single image. -/
def excecaoDocumento {Img : Type} (modelo : Modelo Img) (pergunta : String)
    (d : Documento Img) : Option String :=
  if eNomePdf d.name then
    match d.pdfOpen with
    | .error e => some e
    | .ok paginas => (processarPaginas modelo pergunta d.name 0 paginas).2.2
  else if eNomeImagem d.name then
    match d.imgOpen with
    | .error e => some e
    | .ok imagem =>
      match modelo imagem pergunta with
      | .error e => some e
      | .ok _ => none
  else
    none

/-- Discovery order on page identifiers: within one document, candidates carry
nondecreasing page identifiers (all `na` for an image, nondecreasing page
numbers for a PDF). -/
def paginaLe : PaginaId → PaginaId → Prop
  | .numero m, .numero n => m ≤ n
  | .na, .na => True
  | _, _ => False

/-! Concrete inputs used by witnesses and counterexamples. Images are embedded
as `Nat` identifiers. -/

/-- A concrete page whose rasterization yields image `n`. -/
def pag (n : Nat) : Pagina Nat := ⟨.ok n⟩

/-- A concrete image document. -/
def docImg : Documento Nat := ⟨"foto.png", .error "nao e um pdf", .ok 7⟩

/-- A concrete 3-page PDF document. -/
def docPdf3 : Documento Nat :=
  ⟨"tres.pdf", .ok [pag 1, pag 2, pag 3], .error "nao e uma imagem"⟩

/-- A concrete 2-page PDF document. -/
def docPdfParcial : Documento Nat :=
  ⟨"a.pdf", .ok [pag 1, pag 2], .error "nao e uma imagem"⟩

/-- A concrete PDF document whose decoding fails. -/
def docPdfRuim : Documento Nat := ⟨"ruim.pdf", .error "quebrado", .error "quebrado"⟩

/-- A concrete document with an unrecognized extension. -/
def docTxt : Documento Nat := ⟨"notas.txt", .error "nunca lido", .error "nunca lido"⟩

/-- A concrete model: for image `i` it answers with one strong candidate
mentioning `i` and one candidate below the threshold. -/
def modeloTeste : Modelo Nat := fun i _ =>
  .ok [⟨"resposta " ++ toString i, mkRat 1 2⟩, ⟨"fraca", mkRat 1 200⟩]

/-- A concrete model that raises on image `2` and otherwise returns one strong
candidate. -/
def modeloFalha2 : Modelo Nat := fun i _ =>
  if i = 2 then .error "boom" else .ok [⟨"boa", mkRat 1 2⟩]

/-- A concrete candidate with score 1/2, discovered first. -/
def respostaA : Resposta := ⟨"a.pdf", .numero 1, "um", mkRat 1 2⟩

/-- A concrete candidate with score 9/10. -/
def respostaB : Resposta := ⟨"b.pdf", .numero 1, "dois", mkRat 9 10⟩

/-- A concrete candidate with the same score 1/2 as `respostaA`, discovered
after it. -/
def respostaC : Resposta := ⟨"c.pdf", .numero 2, "tres", mkRat 1 2⟩

/-! Helper lemmas. -/

theorem mem_filtrarRespostas_score {l : List Registro} {r : Registro}
    (h : r ∈ filtrarRespostas l) : limiar < r.score :=
  of_decide_eq_true (List.mem_filter.mp h).2

/-- Everything true of a candidate produced by the PDF page loop: it carries
the document's file name, a score above the threshold, and the 1-based page
identifier of one of the pages. -/
theorem mem_processarPaginas {Img : Type} {modelo : Modelo Img} {pergunta nome : String} :
    ∀ {n : Nat} {ps : List (Pagina Img)} {r : Resposta},
      r ∈ (processarPaginas modelo pergunta nome n ps).1 →
      r.arquivo = nome ∧ limiar < r.score ∧
        ∃ i, i < ps.length ∧ r.pagina = .numero (n + i + 1)
  | _, [], _, h => by simp [processarPaginas] at h
  | n, p :: resto, r, h => by
    rcases hr : p.raster with e | imagem
    · simp [processarPaginas, hr] at h
    · rcases hm : modelo imagem pergunta with e | resultado
      · simp [processarPaginas, hr, hm] at h
      · simp only [processarPaginas, hr, hm, List.mem_append] at h
        rcases h with h | h
        · rcases List.mem_map.mp h with ⟨q, hq, rfl⟩
          refine ⟨rfl, mem_filtrarRespostas_score hq, 0, by simp, rfl⟩
        · rcases mem_processarPaginas h with ⟨h1, h2, i, hi, h3⟩
          refine ⟨h1, h2, i + 1, by simpa using hi, ?_⟩
          rw [h3]; congr 1; omega

/-- The page identifiers produced by the page loop are in nondecreasing
(discovery) order. -/
theorem pairwise_processarPaginas {Img : Type} {modelo : Modelo Img} {pergunta nome : String} :
    ∀ {n : Nat} {ps : List (Pagina Img)},
      (((processarPaginas modelo pergunta nome n ps).1).map (fun r => r.pagina)).Pairwise paginaLe
  | _, [] => by simp [processarPaginas]
  | n, p :: resto => by
    rcases hr : p.raster with e | imagem
    · simp [processarPaginas, hr]
    · rcases hm : modelo imagem pergunta with e | resultado
      · simp [processarPaginas, hr, hm]
      · simp only [processarPaginas, hr, hm, List.map_append, List.map_map]
        refine List.pairwise_append.mpr ⟨?_, pairwise_processarPaginas, ?_⟩
        · exact List.pairwise_of_forall_mem_list (by
            intro a ha b hb
            rcases List.mem_map.mp ha with ⟨_, _, rfl⟩
            rcases List.mem_map.mp hb with ⟨_, _, rfl⟩
            simp [paginaLe])
        · intro a ha b hb
          rcases List.mem_map.mp ha with ⟨_, _, rfl⟩
          rcases List.mem_map.mp hb with ⟨q, hq, rfl⟩
          rcases mem_processarPaginas hq with ⟨_, _, i, _, h3⟩
          simp only [Function.comp]
          rw [h3]
          simp only [paginaLe]
          omega

/-- Everything true of a candidate contributed by one document: it carries the
document's file name and a score above the threshold; under the PDF dispatch it
carries a 1-based page number, otherwise the sentinel. -/
theorem mem_contribuicao {Img : Type} {modelo : Modelo Img} {pergunta : String}
    {d : Documento Img} {r : Resposta} (h : r ∈ contribuicao modelo pergunta d) :
    r.arquivo = d.name ∧ limiar < r.score ∧
      (eNomePdf d.name = true → ∃ i, r.pagina = .numero (i + 1)) ∧
      (eNomePdf d.name = false → r.pagina = .na) := by
  unfold contribuicao processarDocumento at h
  by_cases hpdf : eNomePdf d.name
  · simp only [hpdf, if_true] at h
    unfold processarPdf at h
    rcases ho : d.pdfOpen with e | paginas
    · simp [ho] at h
    · simp only [ho] at h
      have hmem : r ∈ (processarPaginas modelo pergunta d.name 0 paginas).1 := by
        rcases he : (processarPaginas modelo pergunta d.name 0 paginas).2.2 with _ | e <;>
          simpa [he] using h
      rcases mem_processarPaginas hmem with ⟨h1, h2, i, _, h3⟩
      exact ⟨h1, h2, fun _ => ⟨i, by simpa using h3⟩, fun hc => by rw [hpdf] at hc; cases hc⟩
  · have hpdf' : eNomePdf d.name = false := by simpa using hpdf
    by_cases himg : eNomeImagem d.name
    · simp only [hpdf', himg, Bool.false_eq_true, if_false, if_true] at h
      unfold processarImagem at h
      rcases ho : d.imgOpen with e | imagem
      · simp [ho] at h
      · simp only [ho] at h
        rcases hm : modelo imagem pergunta with e | resultado
        · simp [hm] at h
        · simp only [hm] at h
          rcases List.mem_map.mp h with ⟨q, hq, rfl⟩
          exact ⟨rfl, mem_filtrarRespostas_score hq,
            fun hc => by simp [hpdf] at hc, fun _ => rfl⟩
    · have himg' : eNomeImagem d.name = false := by simpa using himg
      simp [hpdf', himg'] at h

/-- The page identifiers of one document's contribution are in nondecreasing
discovery order. -/
theorem pairwise_contribuicao {Img : Type} (modelo : Modelo Img) (pergunta : String)
    (d : Documento Img) :
    ((contribuicao modelo pergunta d).map (fun r => r.pagina)).Pairwise paginaLe := by
  unfold contribuicao processarDocumento
  by_cases hpdf : eNomePdf d.name
  · simp only [hpdf, if_true]
    unfold processarPdf
    rcases ho : d.pdfOpen with e | paginas
    · simp
    · rcases he : (processarPaginas modelo pergunta d.name 0 paginas).2.2 with _ | e <;>
        · simp only [he]
          exact pairwise_processarPaginas
  · have hpdf' : eNomePdf d.name = false := by simpa using hpdf
    by_cases himg : eNomeImagem d.name
    · simp only [hpdf', himg, Bool.false_eq_true, if_false, if_true]
      unfold processarImagem
      rcases ho : d.imgOpen with e | imagem
      · simp [ho]
      · rcases hm : modelo imagem pergunta with e | resultado
        · simp [ho, hm]
        · simp only [ho, hm, List.map_map]
          exact List.pairwise_of_forall_mem_list (by
            intro a ha b hb
            rcases List.mem_map.mp ha with ⟨_, _, rfl⟩
            rcases List.mem_map.mp hb with ⟨_, _, rfl⟩
            simp [paginaLe])
    · have himg' : eNomeImagem d.name = false := by simpa using himg
      simp [hpdf', himg']

/-- The candidates collected by the batch loop are the per-document
contributions concatenated in input order. -/
theorem processarLoop_fst {Img : Type} (modelo : Modelo Img) (pergunta : String) :
    ∀ docs : List (Documento Img),
      (processarLoop modelo pergunta docs).1 =
        (docs.map (contribuicao modelo pergunta)).flatten
  | [] => rfl
  | d :: resto => by
    simp only [processarLoop, List.map_cons, List.flatten_cons]
    rw [processarLoop_fst modelo pergunta resto]
    rfl

/-- The effect log of the batch loop is the per-document effect logs
concatenated in input order. -/
theorem processarLoop_snd {Img : Type} (modelo : Modelo Img) (pergunta : String) :
    ∀ docs : List (Documento Img),
      (processarLoop modelo pergunta docs).2 =
        (docs.map (fun d => (processarDocumento modelo pergunta d).2)).flatten
  | [] => rfl
  | d :: resto => by
    simp only [processarLoop, List.map_cons, List.flatten_cons]
    rw [processarLoop_snd modelo pergunta resto]

/-- The result list of `processar_documentos` is the per-document
contributions concatenated in input order (an empty batch contributes
nothing). -/
theorem processarDocumentos_fst {Img : Type} (modelo : Modelo Img)
    (docs : List (Documento Img)) (pergunta : String) :
    (processarDocumentos modelo docs pergunta).1 =
      (docs.map (contribuicao modelo pergunta)).flatten := by
  unfold processarDocumentos
  rcases docs with _ | ⟨d, resto⟩
  · rfl
  · simpa using processarLoop_fst modelo pergunta (d :: resto)

/-- The two extension checks of the dispatch are mutually exclusive: no file
name can end both in ".pdf" and in one of the image extensions, because a
string has only one suffix of each length. -/
theorem eNomePdf_excl {nome : String} (h : eNomePdf nome = true) :
    eNomeImagem nome = false := by
  have hp : ".pdf".data <:+ (minusculas nome).data := by
    simpa [eNomePdf, terminaCom] using h
  by_contra hne
  have himg : eNomeImagem nome = true := by
    cases hx : eNomeImagem nome
    · exact absurd hx hne
    · rfl
  rw [eNomeImagem, Bool.or_eq_true, Bool.or_eq_true] at himg
  rcases himg with (hc | hc) | hc
  · have hs : ".png".data <:+ (minusculas nome).data := by
      simpa [terminaCom] using hc
    exact absurd (List.suffix_of_suffix_length_le hp hs (by decide)) (by decide)
  · have hs : ".jpg".data <:+ (minusculas nome).data := by
      simpa [terminaCom] using hc
    exact absurd (List.suffix_of_suffix_length_le hp hs (by decide)) (by decide)
  · have hs : ".jpeg".data <:+ (minusculas nome).data := by
      simpa [terminaCom] using hc
    exact absurd (List.suffix_of_suffix_length_le hp hs (by decide)) (by decide)

/-- A document that fails while being opened/decoded contributes nothing and
yields exactly its progress update and the tagged error message. -/
theorem processarDocumento_falhaAbertura {Img : Type} {modelo : Modelo Img}
    {pergunta : String} {d : Documento Img} {e : String}
    (h : falhaAbertura d = some e) :
    processarDocumento modelo pergunta d =
      ([], [.progresso ("Analisando: " ++ d.name), .erro (msgErro d.name e)]) := by
  unfold falhaAbertura at h
  unfold processarDocumento
  by_cases hpdf : eNomePdf d.name
  · simp only [hpdf, if_true] at h ⊢
    rcases ho : d.pdfOpen with e' | paginas
    · simp only [ho, Option.some.injEq] at h
      subst h
      unfold processarPdf
      simp [ho]
    · simp [ho] at h
  · have hpdf' : eNomePdf d.name = false := by simpa using hpdf
    simp only [hpdf', Bool.false_eq_true, if_false] at h ⊢
    by_cases himg : eNomeImagem d.name
    · simp only [himg, if_true] at h ⊢
      rcases ho : d.imgOpen with e' | imagem
      · simp only [ho, Option.some.injEq] at h
        subst h
        unfold processarImagem
        simp [ho]
      · simp [ho] at h
    · have himg' : eNomeImagem d.name = false := by simpa using himg
      simp [himg'] at h

/-- If the pages before `bad` process cleanly and `bad` raises, the page loop
over the whole list yields exactly the clean prefix's candidates — the pages
after the failure are never reached — and its exception is the failing
page's. -/
theorem processarPaginas_prefixo {Img : Type} (modelo : Modelo Img) (pergunta nome : String) :
    ∀ (n : Nat) (ps₁ : List (Pagina Img)) (bad : Pagina Img) (ps₂ : List (Pagina Img))
      (e : String),
      (processarPaginas modelo pergunta nome n ps₁).2.2 = none →
      falhaPagina modelo pergunta bad = some e →
      (processarPaginas modelo pergunta nome n (ps₁ ++ bad :: ps₂)).1 =
          (processarPaginas modelo pergunta nome n ps₁).1 ∧
        (processarPaginas modelo pergunta nome n (ps₁ ++ bad :: ps₂)).2.2 = some e
  | n, [], bad, ps₂, e, _, hbad => by
    rcases hr : bad.raster with e' | imagem
    · simp only [falhaPagina, hr, Option.some.injEq] at hbad
      subst hbad
      simp [processarPaginas, hr]
    · rcases hm : modelo imagem pergunta with e' | resultado
      · simp only [falhaPagina, hr, hm, Option.some.injEq] at hbad
        subst hbad
        simp [processarPaginas, hr, hm]
      · simp [falhaPagina, hr, hm] at hbad
  | n, p :: resto, bad, ps₂, e, hnone, hbad => by
    rcases hr : p.raster with e' | imagem
    · simp [processarPaginas, hr] at hnone
    · rcases hm : modelo imagem pergunta with e' | resultado
      · simp [processarPaginas, hr, hm] at hnone
      · have hnone' : (processarPaginas modelo pergunta nome (n + 1) resto).2.2 = none := by
          simpa [processarPaginas, hr, hm] using hnone
        have ih := processarPaginas_prefixo modelo pergunta nome (n + 1) resto bad ps₂ e
          hnone' hbad
        simp only [List.cons_append, processarPaginas, hr, hm, List.append_eq]
        exact ⟨by rw [ih.1], ih.2⟩

/-- Whenever the per-document processing catches an exception, the document's
effect log ends with the error tagged with its file name. -/
theorem processarDocumento_excecao {Img : Type} {modelo : Modelo Img} {pergunta : String}
    {d : Documento Img} {e : String} (h : excecaoDocumento modelo pergunta d = some e) :
    ∃ efs, (processarDocumento modelo pergunta d).2 = efs ++ [.erro (msgErro d.name e)] := by
  unfold excecaoDocumento at h
  unfold processarDocumento
  by_cases hpdf : eNomePdf d.name
  · simp only [hpdf, if_true] at h ⊢
    unfold processarPdf
    rcases ho : d.pdfOpen with e' | paginas
    · simp only [ho, Option.some.injEq] at h
      subst h
      exact ⟨[.progresso ("Analisando: " ++ d.name)], by simp [ho]⟩
    · simp only [ho] at h
      refine ⟨.progresso ("Analisando: " ++ d.name) ::
        (processarPaginas modelo pergunta d.name 0 paginas).2.1, ?_⟩
      simp [ho, h]
  · have hpdf' : eNomePdf d.name = false := by simpa using hpdf
    simp only [hpdf', Bool.false_eq_true, if_false] at h ⊢
    by_cases himg : eNomeImagem d.name
    · simp only [himg, if_true] at h ⊢
      unfold processarImagem
      rcases ho : d.imgOpen with e' | imagem
      · simp only [ho, Option.some.injEq] at h
        subst h
        exact ⟨[.progresso ("Analisando: " ++ d.name)], by simp [ho]⟩
      · simp only [ho] at h
        rcases hm : modelo imagem pergunta with e' | resultado
        · simp only [hm, Option.some.injEq] at h
          subst h
          exact ⟨[.progresso ("Analisando: " ++ d.name), .modeloAplicado], by simp [ho, hm]⟩
        · simp [hm] at h
    · have himg' : eNomeImagem d.name = false := by simpa using himg
      simp [himg'] at h

/-! Claim theorems. -/

/-- C3: for every input batch and question, every AnswerCandidate in the list
returned by the collection step has confidence score strictly greater than
0.01; entries whose score is at most 0.01 are filtered out. -/
theorem C3_score_acima_limiar {Img : Type} (modelo : Modelo Img)
    (docs : List (Documento Img)) (pergunta : String) (r : Resposta)
    (h : r ∈ (processarDocumentos modelo docs pergunta).1) : limiar < r.score := by
  rw [processarDocumentos_fst] at h
  rcases List.mem_flatten.mp h with ⟨l, hl, hr⟩
  rcases List.mem_map.mp hl with ⟨d, _, rfl⟩
  exact (mem_contribuicao hr).2.1

/-- Witness for C3: a concrete candidate of a concrete batch has score above
the threshold. -/
theorem C3_score_acima_limiar_witness :
    (⟨"foto.png", .na, "resposta 7", mkRat 1 2⟩ : Resposta) ∈
        (processarDocumentos modeloTeste [docImg] "q").1 ∧
      limiar < (⟨"foto.png", .na, "resposta 7", mkRat 1 2⟩ : Resposta).score :=
  ⟨by decide, C3_score_acima_limiar modeloTeste [docImg] "q" _ (by decide)⟩

/-- C5: every AnswerCandidate produced from a PDF document carries a 1-based
page identifier equal to its page index plus one (a 3-page PDF yields page
identifiers 1, 2, 3 in that order), and every AnswerCandidate produced from a
document dispatched outside the PDF branch (in particular a standalone image
file) carries the sentinel page identifier. -/
theorem C5_identificador_pagina :
    (∀ (Img : Type) (modelo : Modelo Img) (pergunta nome : String)
        (ps : List (Pagina Img)) (r : Resposta),
        r ∈ (processarPaginas modelo pergunta nome 0 ps).1 →
          ∃ i, i < ps.length ∧ r.pagina = .numero (i + 1)) ∧
      (∀ (Img : Type) (modelo : Modelo Img) (pergunta : String) (d : Documento Img)
        (r : Resposta), r ∈ contribuicao modelo pergunta d →
          eNomePdf d.name = true → ∃ i, r.pagina = .numero (i + 1)) ∧
      (∀ (Img : Type) (modelo : Modelo Img) (pergunta : String) (d : Documento Img)
        (r : Resposta), r ∈ contribuicao modelo pergunta d →
          eNomePdf d.name = false → r.pagina = .na) ∧
      (contribuicao modeloTeste "q" docPdf3).map (fun r => r.pagina) =
        [.numero 1, .numero 2, .numero 3] :=
  ⟨fun _ _ _ _ _ _ h => by
      rcases (mem_processarPaginas h).2.2 with ⟨i, hi, hp⟩
      exact ⟨i, hi, by simpa using hp⟩,
   fun _ _ _ _ _ h hp => (mem_contribuicao h).2.2.1 hp,
   fun _ _ _ _ _ h hp => (mem_contribuicao h).2.2.2 hp,
   by decide⟩

/-- Witness for C5: a candidate of a concrete 3-page PDF carries the page
identifier of its page index plus one. -/
theorem C5_identificador_pagina_witness :
    (⟨"tres.pdf", .numero 2, "resposta 2", mkRat 1 2⟩ : Resposta) ∈
        contribuicao modeloTeste "q" docPdf3 ∧
      ∃ i, (⟨"tres.pdf", .numero 2, "resposta 2", mkRat 1 2⟩ : Resposta).pagina =
        .numero (i + 1) :=
  ⟨by decide, C5_identificador_pagina.2.1 Nat modeloTeste "q" docPdf3 _ (by decide) (by decide)⟩

/-- C6: for an empty document list, the collection operation signals a
user-visible warning and returns an empty result list without invoking the
model on any image. -/
theorem C6_lote_vazio {Img : Type} (modelo : Modelo Img) (pergunta : String) :
    processarDocumentos modelo ([] : List (Documento Img)) pergunta =
        ([], [.aviso "Por favor, carregue um ou mais documentos antes de perguntar."]) ∧
      Efeito.modeloAplicado ∉
        (processarDocumentos modelo ([] : List (Documento Img)) pergunta).2 :=
  ⟨rfl, by intro hc; simp [processarDocumentos] at hc⟩

/-- Witness for C6 at a concrete model and question. -/
theorem C6_lote_vazio_witness :
    processarDocumentos modeloTeste ([] : List (Documento Nat)) "q" =
        ([], [.aviso "Por favor, carregue um ou mais documentos antes de perguntar."]) ∧
      Efeito.modeloAplicado ∉ (processarDocumentos modeloTeste ([] : List (Documento Nat)) "q").2 :=
  C6_lote_vazio modeloTeste "q"

/-- C7: the AnswerCandidates returned by the collection step (before the
presentation sort) appear in discovery order: the result is the concatenation
of the per-document contributions in input-file order, each candidate carries
its own document's file name, and within one document the page identifiers are
in nondecreasing page order. -/
theorem C7_ordem_descoberta :
    (∀ (Img : Type) (modelo : Modelo Img) (pergunta : String) (docs : List (Documento Img)),
        (processarDocumentos modelo docs pergunta).1 =
          (docs.map (contribuicao modelo pergunta)).flatten) ∧
      (∀ (Img : Type) (modelo : Modelo Img) (pergunta : String) (d : Documento Img)
        (r : Resposta), r ∈ contribuicao modelo pergunta d → r.arquivo = d.name) ∧
      ∀ (Img : Type) (modelo : Modelo Img) (pergunta : String) (d : Documento Img),
        ((contribuicao modelo pergunta d).map (fun r => r.pagina)).Pairwise paginaLe :=
  ⟨fun _ modelo pergunta docs => processarDocumentos_fst modelo docs pergunta,
   fun _ _ _ _ _ h => (mem_contribuicao h).1,
   fun _ modelo pergunta d => pairwise_contribuicao modelo pergunta d⟩

/-- Witness for C7 at a concrete two-document batch. -/
theorem C7_ordem_descoberta_witness :
    (processarDocumentos modeloTeste [docImg, docPdf3] "q").1 =
      (([docImg, docPdf3].map (contribuicao modeloTeste "q"))).flatten :=
  C7_ordem_descoberta.1 Nat modeloTeste "q" [docImg, docPdf3]

/-- C8: calling the Model Provider's get-model operation twice within the same
process returns the same cached instance: the model is constructed on the
first call only, and every subsequent call returns that instance with no
duplicate construction. -/
theorem C8_cache_modelo :
    (∀ (M : Type) (p : M), carregarModeloQA p (none : Option M) = (p, some p, true)) ∧
      (∀ (M : Type) (p m : M), carregarModeloQA p (some m) = (m, some m, false)) ∧
      ∀ (M : Type) (p : M) (cache : Option M),
        (carregarModeloQA p (carregarModeloQA p cache).2.1).1 =
            (carregarModeloQA p cache).1 ∧
          (carregarModeloQA p (carregarModeloQA p cache).2.1).2.2 = false :=
  ⟨fun _ _ => rfl, fun _ _ _ => rfl,
   fun _ p cache => by cases cache <;> exact ⟨rfl, rfl⟩⟩

/-- Witness for C8 at a concrete model value. -/
theorem C8_cache_modelo_witness :
    (carregarModeloQA modeloTeste (carregarModeloQA modeloTeste none).2.1).1 =
        (carregarModeloQA modeloTeste none).1 ∧
      (carregarModeloQA modeloTeste (carregarModeloQA modeloTeste none).2.1).2.2 = false :=
  C8_cache_modelo.2.2 (Modelo Nat) modeloTeste none

/-- C9: a document whose file name matches neither the ".pdf" check nor the
image-extension check is a silent no-op: it contributes zero candidates, its
only effect is the progress update (no error and no warning), and subsequent
documents are still processed. -/
theorem C9_extensao_desconhecida {Img : Type} (modelo : Modelo Img) (pergunta : String)
    (d : Documento Img) (resto : List (Documento Img))
    (h1 : eNomePdf d.name = false) (h2 : eNomeImagem d.name = false) :
    processarDocumento modelo pergunta d = ([], [.progresso ("Analisando: " ++ d.name)]) ∧
      (processarLoop modelo pergunta (d :: resto)).1 = (processarLoop modelo pergunta resto).1 ∧
      (processarLoop modelo pergunta (d :: resto)).2 =
        .progresso ("Analisando: " ++ d.name) :: (processarLoop modelo pergunta resto).2 := by
  have hd : processarDocumento modelo pergunta d =
      ([], [.progresso ("Analisando: " ++ d.name)]) := by
    unfold processarDocumento
    simp [h1, h2]
  exact ⟨hd, by simp [processarLoop, hd], by simp [processarLoop, hd]⟩

/-- Witness for C9: a concrete ".txt" document in front of an image document
is skipped silently while the image is still processed. -/
theorem C9_extensao_desconhecida_witness :
    processarDocumento modeloTeste "q" docTxt =
        ([], [.progresso ("Analisando: " ++ docTxt.name)]) ∧
      (processarLoop modeloTeste "q" (docTxt :: [docImg])).1 =
          (processarLoop modeloTeste "q" [docImg]).1 ∧
      (processarLoop modeloTeste "q" (docTxt :: [docImg])).2 =
        .progresso ("Analisando: " ++ docTxt.name) :: (processarLoop modeloTeste "q" [docImg]).2 :=
  C9_extensao_desconhecida modeloTeste "q" docTxt [docImg] (by decide) (by decide)

/-- C1 (counterexample): in a concrete interaction whose question text is
empty, the warning is signaled, yet the model-loading operation
`carregar_modelo_qa` is invoked (and, the cache being cold, the pipeline is
actually constructed) — it stands at the top of the script run, before the
question check — contradicting the claim that it is not called at all. -/
theorem C1_contraexemplo :
    Efeito.aviso "Por favor, digite uma pergunta." ∈
        (execApp modeloTeste none [docImg] true "").2.2 ∧
      Efeito.chamadaCarregar ∈ (execApp modeloTeste none [docImg] true "").2.2 ∧
      Efeito.construcaoPipeline ∈ (execApp modeloTeste none [docImg] true "").2.2 := by
  decide

/-- C1 (amended): with an empty question, the warning is signaled and the
effect log of the whole run is exactly the load-operation call (plus the
pipeline construction when the cache is cold) followed by the warning — in
particular no progress update, no per-document error, no model application and
no rendering occur, so no document is read or decoded; but the model-loading
operation itself is invoked on every run. -/
theorem C1_pergunta_vazia :
    (∀ (Img : Type) (p : Modelo Img) (docs : List (Documento Img)),
        execApp p none docs true "" =
          ([], some p,
            [.chamadaCarregar, .construcaoPipeline, .aviso "Por favor, digite uma pergunta."])) ∧
      ∀ (Img : Type) (p m : Modelo Img) (docs : List (Documento Img)),
        execApp p (some m) docs true "" =
          ([], some m, [.chamadaCarregar, .aviso "Por favor, digite uma pergunta."]) :=
  ⟨fun _ _ _ => rfl, fun _ _ _ _ => rfl⟩

/-- Witness for C1 (amended) at a concrete run. -/
theorem C1_pergunta_vazia_witness :
    execApp modeloTeste none [docImg] true "" =
      ([], some modeloTeste,
        [.chamadaCarregar, .construcaoPipeline, .aviso "Por favor, digite uma pergunta."]) :=
  C1_pergunta_vazia.1 Nat modeloTeste [docImg]

/-- C2 (counterexample): a concrete 2-page PDF whose second page raises makes
the per-document handler report the tagged error, yet the document contributes
one candidate (from its first page), not zero. -/
theorem C2_contraexemplo :
    Efeito.erro "Erro ao processar o arquivo a.pdf: boom" ∈
        (processarDocumentos modeloFalha2 [docPdfParcial] "q").2 ∧
      (processarDocumentos modeloFalha2 [docPdfParcial] "q").1 =
        [⟨"a.pdf", .numero 1, "boa", mkRat 1 2⟩] := by
  decide

/-- C2 (amended): whenever processing a document raises an exception — at
decode time, on a PDF page, or on the single image — the error is caught at
the per-document boundary (the document's effect log ends with the error
tagged with its file name), processing continues with the other documents (the
batch result is the concatenation of the contributions of the documents
before, of the failing document, and of the documents after), and the failing
document contributes only the candidates appended before the exception:
exactly the clean page prefix's candidates when a PDF page fails, and zero
candidates when the failure occurs while opening/decoding the document. -/
theorem C2_isolamento_por_documento {Img : Type} (modelo : Modelo Img) (pergunta : String)
    (pre post : List (Documento Img)) (d : Documento Img) (e : String)
    (h : excecaoDocumento modelo pergunta d = some e) :
    (∃ efs, (processarDocumento modelo pergunta d).2 = efs ++ [.erro (msgErro d.name e)]) ∧
      Efeito.erro (msgErro d.name e) ∈
        (processarDocumentos modelo (pre ++ d :: post) pergunta).2 ∧
      (processarDocumentos modelo (pre ++ d :: post) pergunta).1 =
        (processarLoop modelo pergunta pre).1 ++ contribuicao modelo pergunta d ++
          (processarLoop modelo pergunta post).1 ∧
      (∀ (ps₁ : List (Pagina Img)) (bad : Pagina Img) (ps₂ : List (Pagina Img)),
        eNomePdf d.name = true → d.pdfOpen = .ok (ps₁ ++ bad :: ps₂) →
        (processarPaginas modelo pergunta d.name 0 ps₁).2.2 = none →
        falhaPagina modelo pergunta bad ≠ none →
        contribuicao modelo pergunta d =
          (processarPaginas modelo pergunta d.name 0 ps₁).1) ∧
      ∀ e', falhaAbertura d = some e' → contribuicao modelo pergunta d = [] := by
  have hrel : Efeito.erro (msgErro d.name e) ∈ (processarDocumento modelo pergunta d).2 := by
    rcases processarDocumento_excecao h with ⟨efs, hefs⟩
    rw [hefs]
    simp
  have hne : (pre ++ d :: post).isEmpty = false := by
    cases pre <;> rfl
  refine ⟨processarDocumento_excecao h, ?_, ?_, ?_, ?_⟩
  · unfold processarDocumentos
    rw [hne]
    simp only [Bool.false_eq_true, if_false, processarLoop_snd]
    exact List.mem_cons.mpr (Or.inr (List.mem_flatten.mpr
      ⟨(processarDocumento modelo pergunta d).2,
       List.mem_map.mpr ⟨d, List.mem_append_right _ (List.mem_cons_self d post), rfl⟩,
       hrel⟩))
  · rw [processarDocumentos_fst]
    simp [processarLoop_fst, List.append_assoc]
  · intro ps₁ bad ps₂ hpdf hopen hclean hbadne
    rcases hbad : falhaPagina modelo pergunta bad with _ | e₂
    · exact absurd hbad hbadne
    · have hpref := processarPaginas_prefixo modelo pergunta d.name 0 ps₁ bad ps₂ e₂
        hclean hbad
      unfold contribuicao processarDocumento
      simp only [hpdf, if_true]
      unfold processarPdf
      simp only [hopen]
      rcases hz : (processarPaginas modelo pergunta d.name 0 (ps₁ ++ bad :: ps₂)).2.2
        with _ | e₃ <;>
        simp [hz, hpref.1]
  · intro e' hfa
    unfold contribuicao
    rw [processarDocumento_falhaAbertura hfa]

/-- Witness for C2 (amended): a concrete 2-page PDF whose second page's model
call raises, sitting between two other documents, is reported tagged, keeps
exactly its first page's candidate, and the neighbours are still processed. -/
theorem C2_isolamento_witness :
    (∃ efs, (processarDocumento modeloFalha2 "q" docPdfParcial).2 =
        efs ++ [.erro (msgErro docPdfParcial.name "boom")]) ∧
      Efeito.erro (msgErro docPdfParcial.name "boom") ∈
        (processarDocumentos modeloFalha2 ([docImg] ++ docPdfParcial :: [docPdf3]) "q").2 ∧
      (processarDocumentos modeloFalha2 ([docImg] ++ docPdfParcial :: [docPdf3]) "q").1 =
        (processarLoop modeloFalha2 "q" [docImg]).1 ++
          contribuicao modeloFalha2 "q" docPdfParcial ++
          (processarLoop modeloFalha2 "q" [docPdf3]).1 ∧
      (∀ (ps₁ : List (Pagina Nat)) (bad : Pagina Nat) (ps₂ : List (Pagina Nat)),
        eNomePdf docPdfParcial.name = true →
        docPdfParcial.pdfOpen = .ok (ps₁ ++ bad :: ps₂) →
        (processarPaginas modeloFalha2 "q" docPdfParcial.name 0 ps₁).2.2 = none →
        falhaPagina modeloFalha2 "q" bad ≠ none →
        contribuicao modeloFalha2 "q" docPdfParcial =
          (processarPaginas modeloFalha2 "q" docPdfParcial.name 0 ps₁).1) ∧
      ∀ e', falhaAbertura docPdfParcial = some e' →
        contribuicao modeloFalha2 "q" docPdfParcial = [] :=
  C2_isolamento_por_documento modeloFalha2 "q" [docImg] [docPdf3] docPdfParcial "boom"
    (by decide)

/-- C4: the displayed sequence is sorted by confidence score descending with a
stable sort: adjacent scores are nonincreasing, the sorted sequence is a
permutation of the collected one, and two candidates with equal scores keep
their original discovery order. -/
theorem C4_ordenacao_estavel (l : List Resposta) (a b : Resposta)
    (hsub : [a, b].Sublist l) (hsc : a.score = b.score) :
    List.Chain' (fun x y : Resposta => y.score ≤ x.score) (respostasOrdenadas l) ∧
      (respostasOrdenadas l).Perm l ∧
      [a, b].Sublist (respostasOrdenadas l) := by
  have htrans : ∀ (x y z : Resposta),
      ordemScore x y = true → ordemScore y z = true → ordemScore x z = true := by
    intro x y z hx hy
    simp only [ordemScore, decide_eq_true_eq] at *
    exact le_trans hy hx
  have htotal : ∀ (x y : Resposta), ordemScore x y || ordemScore y x := by
    intro x y
    rcases le_total x.score y.score with h | h <;>
      simp [ordemScore, h]
  refine ⟨?_, ?_, ?_⟩
  · exact ((List.sorted_mergeSort htrans htotal l).imp
      (fun h => by simpa [ordemScore] using h)).chain'
  · exact List.mergeSort_perm l ordemScore
  · exact List.pair_sublist_mergeSort htrans htotal
      (by simp [ordemScore, hsc.symm.le]) hsub

/-- Witness for C4: a concrete list with a score tie between its first and
third candidates stays sorted descending and keeps the tie in discovery
order. -/
theorem C4_ordenacao_estavel_witness :
    List.Chain' (fun x y : Resposta => y.score ≤ x.score)
        (respostasOrdenadas [respostaA, respostaB, respostaC]) ∧
      (respostasOrdenadas [respostaA, respostaB, respostaC]).Perm
        [respostaA, respostaB, respostaC] ∧
      [respostaA, respostaC].Sublist (respostasOrdenadas [respostaA, respostaB, respostaC]) :=
  C4_ordenacao_estavel [respostaA, respostaB, respostaC] respostaA respostaC
    (by decide) (by decide)

/-- C10: extension dispatch is case-insensitive on the lowercased file name:
under the ".pdf" check the PDF branch runs, under an image-extension check the
image branch runs (the two checks are mutually exclusive, so the `elif` guard
is equivalent to the plain image check), and a file named "SCAN.PDF" passes
the PDF check. -/
theorem C10_despacho_extensao :
    (∀ nome : String, eNomePdf nome = true → eNomeImagem nome = false) ∧
      (∀ (Img : Type) (modelo : Modelo Img) (pergunta : String) (d : Documento Img),
        eNomePdf d.name = true →
          processarDocumento modelo pergunta d =
            ((processarPdf modelo pergunta d).1,
              .progresso ("Analisando: " ++ d.name) :: (processarPdf modelo pergunta d).2)) ∧
      (∀ (Img : Type) (modelo : Modelo Img) (pergunta : String) (d : Documento Img),
        eNomeImagem d.name = true →
          processarDocumento modelo pergunta d =
            ((processarImagem modelo pergunta d).1,
              .progresso ("Analisando: " ++ d.name) :: (processarImagem modelo pergunta d).2)) ∧
      eNomePdf "SCAN.PDF" = true ∧ eNomeImagem "Foto.JPeG" = true ∧
        eNomePdf "scanpdf" = false := by
  refine ⟨fun nome => eNomePdf_excl, ?_, ?_, by decide, by decide, by decide⟩
  · intro Img modelo pergunta d hpdf
    unfold processarDocumento
    simp [hpdf]
  · intro Img modelo pergunta d himg
    have hpdf : eNomePdf d.name = false := by
      cases hx : eNomePdf d.name
      · rfl
      · rw [eNomePdf_excl hx] at himg
        cases himg
    unfold processarDocumento
    simp [hpdf, himg]

/-- Witness for C10: the exclusivity of the two checks, applied at the
concrete upper-case name "SCAN.PDF". -/
theorem C10_despacho_extensao_witness : eNomeImagem "SCAN.PDF" = false :=
  C10_despacho_extensao.1 "SCAN.PDF" (by decide)

end AgenteEstudos
